import Mathlib

/-!
Verification of the python_tauri binding layer.

This file gives a shallow embedding of the marshaling, registry, dispatch,
event-relay and static-file components of the repository (src/python_utils.rs
and src/lib.rs) and proves the specified properties about them.

Modelling conventions:
  - Python host values are modelled by the inductive `PyVal`.  A finite double
    is modelled abstractly by an integer code (`PyFloatVal.finite`); the three
    non-finite doubles are explicit constructors.  Floating-point rounding is
    not modelled: no verified property depends on it.
  - `serde_json::Value` is modelled by `JValue`.  Object entries are kept in
    list order; the source stores them in a map whose iteration order is
    irrelevant to every property proved here.
  - Fallible Rust/PyO3 code is modelled with `Except`.
  - Process-global registries are modelled by explicit state passed to the
    functions that read them.  The `HashMap` of command handlers is modelled
    extensionally as a partial map `String → Option PyCallback`.
  - External host calls (Python callbacks, the tauri event bus, the URL parser
    and the window builder) are modelled as explicit function parameters.
  - Where a function performs an outward effect (invoking a Python callback,
    emitting on the bus, exiting), the model additionally returns a trace of
    those effects so that claims about what was or was not invoked are
    statable.
-/

/-- Model of a Python float (a 64-bit IEEE double): either a finite value,
identified abstractly by an integer code, or one of the non-finite values. -/
inductive PyFloatVal : Type where
  | finite (code : Int) : PyFloatVal
  | nan : PyFloatVal
  | inf : PyFloatVal
  | negInf : PyFloatVal

/-- Model of a Python host value as seen through the PyO3 extraction probes
used by `pyany_to_json_value`: None, bool, int (arbitrary precision), float,
str, list, dict (keys are arbitrary values), and an unrecognized opaque host
object identified by a numeric id. -/
inductive PyVal : Type where
  | pyNone : PyVal
  | pyBool (b : Bool) : PyVal
  | pyInt (n : Int) : PyVal
  | pyFloat (f : PyFloatVal) : PyVal
  | pyStr (s : String) : PyVal
  | pyList (xs : List PyVal) : PyVal
  | pyDict (entries : List (PyVal × PyVal)) : PyVal
  | pyObject (id : Nat) : PyVal

/-- Model of a `serde_json` number: either an `i64` (the integer extraction
path) or a finite double (the `Number::from_f64` path), carried by its
abstract code. -/
inductive JNum : Type where
  | int (n : Int) : JNum
  | float (code : Int) : JNum

/-- Model of `serde_json::Value`. -/
inductive JValue : Type where
  | null : JValue
  | bool (b : Bool) : JValue
  | num (n : JNum) : JValue
  | str (s : String) : JValue
  | arr (xs : List JValue) : JValue
  | obj (entries : List (String × JValue)) : JValue

/-- The typed conversion failure raised by `pyany_to_json_value` for a value
that matches none of the extraction probes (a `PyTypeError` in the source). -/
inductive ConvErr : Type where
  | cannotConvert (v : PyVal) : ConvErr

/-- Tests whether an `Except` result is the error case. -/
def isErr {ε α : Type} : Except ε α → Bool
  | .error _ => true
  | .ok _ => false

/-! ### The PyO3 extraction probes (python_utils.rs lines 7-38)

Each probe models the corresponding `extract::<T>` trial on a host value. -/

/-- Probe `py_obj.is_none(py)`. -/
def is_none : PyVal → Bool
  | .pyNone => true
  | _ => false

/-- Probe `extract::<bool>`: succeeds exactly on a Python bool. -/
def extract_bool : PyVal → Option Bool
  | .pyBool b => some b
  | _ => none

/-- The `i64` range test used by `extract::<i64>`. -/
def int_fits_i64 (n : Int) : Bool :=
  decide (-(2 ^ 63) ≤ n ∧ n < 2 ^ 63)

/-- Probe `extract::<i64>`: succeeds on a bool (0 or 1) or an int within the
`i64` range.  The bool case is unreachable in the probe chain because the bool
probe runs first. -/
def extract_i64 : PyVal → Option Int
  | .pyBool b => some (if b then 1 else 0)
  | .pyInt n => if int_fits_i64 n then some n else none
  | _ => none

/-- Whether a Python int converts to a finite double (CPython raises
OverflowError beyond the double range; rounding is abstracted: the code of the
resulting finite double is the integer itself). -/
def int_to_f64 (n : Int) : Option Int :=
  if n.natAbs < 2 ^ 1024 then some n else none

/-- Probe `extract::<f64>`: succeeds on a bool, an int within double range, or
a float.  The bool and small-int cases are unreachable in the probe chain
because earlier probes catch them. -/
def extract_f64 : PyVal → Option PyFloatVal
  | .pyBool b => some (.finite (if b then 1 else 0))
  | .pyInt n => (int_to_f64 n).map PyFloatVal.finite
  | .pyFloat f => some f
  | _ => none

/-- Model of `serde_json::Number::from_f64`: `some` exactly on a finite
double. -/
def number_from_f64 : PyFloatVal → Option JNum
  | .finite c => some (.float c)
  | _ => none

/-- Probe `extract::<String>`: succeeds exactly on a Python str. -/
def extract_string : PyVal → Option String
  | .pyStr s => some s
  | _ => none

/-- Probe `extract::<Vec<PyObject>>`: succeeds exactly on a Python list. -/
def extract_list : PyVal → Option (List PyVal)
  | .pyList xs => some xs
  | _ => none

/-- Extraction of a dict key as a `String`: succeeds exactly on a str key. -/
def extract_string_key : PyVal → Option String
  | .pyStr s => some s
  | _ => none

/-- Probe `extract::<HashMap<String, PyObject>>`: succeeds exactly on a dict
all of whose keys are str, returning its entries. -/
def extract_string_map : PyVal → Option (List (PyVal × PyVal))
  | .pyDict es =>
    if es.all (fun e => (extract_string_key e.1).isSome) then some es else none
  | _ => none

theorem extract_list_size {v : PyVal} {xs : List PyVal}
    (h : extract_list v = some xs) : sizeOf xs < sizeOf v := by
  cases v <;> simp [extract_list] at h
  subst h; simp

theorem extract_string_map_size {v : PyVal} {es : List (PyVal × PyVal)}
    (h : extract_string_map v = some es) : sizeOf es < sizeOf v := by
  cases v <;> simp [extract_string_map] at h
  rcases h with ⟨h1, h2⟩
  subst h2; simp

/-! ### The coercion function (python_utils.rs, `pyany_to_json_value`)

The definition follows the source line by line: the probes are tried in the
fixed order None, bool, i64, f64, String, Vec, HashMap; the first succeeding
probe decides the result; a value matching no probe yields the typed
conversion error.  `convList` is the `collect::<Result<_, _>>()` over list
elements and `convEntries` the value-conversion loop over dict entries; both
stop at the first failing element, so no partial list or map is produced. -/

mutual

def pyany_to_json_value (v : PyVal) : Except ConvErr JValue :=
  if is_none v then .ok .null
  else match extract_bool v with
  | some b => .ok (.bool b)
  | none =>
    match extract_i64 v with
    | some n => .ok (.num (.int n))
    | none =>
      match extract_f64 v with
      | some f =>
        match number_from_f64 f with
        | some num => .ok (.num num)
        | none => .ok .null
      | none =>
        match extract_string v with
        | some s => .ok (.str s)
        | none =>
          match hl : extract_list v with
          | some xs => (convList xs).map JValue.arr
          | none =>
            match hm : extract_string_map v with
            | some es => (convEntries es).map JValue.obj
            | none => .error (.cannotConvert v)
termination_by sizeOf v
decreasing_by
  all_goals first
    | exact extract_list_size hl
    | exact extract_string_map_size hm

def convList (xs : List PyVal) : Except ConvErr (List JValue) :=
  match xs with
  | [] => .ok []
  | x :: rest =>
    match pyany_to_json_value x with
    | .error e => .error e
    | .ok jx =>
      match convList rest with
      | .error e => .error e
      | .ok jrest => .ok (jx :: jrest)
termination_by sizeOf xs
decreasing_by
  all_goals (simp <;> omega)

def convEntries (es : List (PyVal × PyVal)) :
    Except ConvErr (List (String × JValue)) :=
  match es with
  | [] => .ok []
  | e :: rest =>
    match pyany_to_json_value e.2 with
    | .error err => .error err
    | .ok jv =>
      match convEntries rest with
      | .error err => .error err
      | .ok jrest => .ok (((extract_string_key e.1).getD "", jv) :: jrest)
termination_by sizeOf es
decreasing_by
  all_goals ((try cases e) <;> simp <;> omega)

end

theorem isErr_map {ε α β : Type} (f : α → β) (x : Except ε α) :
    isErr (x.map f) = isErr x := by
  cases x <;> rfl

theorem convList_isErr (xs : List PyVal) :
    isErr (convList xs) = xs.any (fun x => isErr (pyany_to_json_value x)) := by
  induction xs with
  | nil => rw [convList]; rfl
  | cons x rest ih =>
    rw [convList, List.any_cons, ← ih]
    cases hx : pyany_to_json_value x with
    | error e => simp [isErr]
    | ok jx =>
      cases hr : convList rest with
      | error e2 => simp [isErr]
      | ok l => simp [isErr]

theorem convEntries_isErr (es : List (PyVal × PyVal)) :
    isErr (convEntries es) =
      es.any (fun e => isErr (pyany_to_json_value e.2)) := by
  induction es with
  | nil => rw [convEntries]; rfl
  | cons e rest ih =>
    rw [convEntries, List.any_cons, ← ih]
    cases hx : pyany_to_json_value e.2 with
    | error err => simp [isErr]
    | ok jv =>
      cases hr : convEntries rest with
      | error err => simp [isErr]
      | ok l => simp [isErr]

/-- C1: the coercion probes in the fixed first-match-wins order (None, bool,
int, float, str, sequence, string-keyed mapping), producing Null, Bool,
Number, Number, String, List, Map respectively; a non-finite float coerces to
Null rather than failing; a failing element of a list, or a failing value of a
string-keyed dict, fails the whole coercion and a fully successful one
succeeds (no partial lists or maps); and a value matching no probe (an opaque
host object, or a dict with a non-str key) yields the typed conversion error —
the function is total, so it never panics. -/
theorem C1_pyany_to_json_value_spec :
    (pyany_to_json_value .pyNone = .ok .null)
    ∧ (∀ b, pyany_to_json_value (.pyBool b) = .ok (.bool b))
    ∧ (∀ n, int_fits_i64 n = true →
        pyany_to_json_value (.pyInt n) = .ok (.num (.int n)))
    ∧ (∀ c, pyany_to_json_value (.pyFloat (.finite c)) = .ok (.num (.float c)))
    ∧ (pyany_to_json_value (.pyFloat .nan) = .ok .null
       ∧ pyany_to_json_value (.pyFloat .inf) = .ok .null
       ∧ pyany_to_json_value (.pyFloat .negInf) = .ok .null)
    ∧ (∀ s, pyany_to_json_value (.pyStr s) = .ok (.str s))
    ∧ (∀ xs, pyany_to_json_value (.pyList xs) = (convList xs).map JValue.arr
       ∧ isErr (pyany_to_json_value (.pyList xs))
           = xs.any (fun x => isErr (pyany_to_json_value x)))
    ∧ (∀ es, es.all (fun e => (extract_string_key e.1).isSome) = true →
        pyany_to_json_value (.pyDict es) = (convEntries es).map JValue.obj
        ∧ isErr (pyany_to_json_value (.pyDict es))
            = es.any (fun e => isErr (pyany_to_json_value e.2)))
    ∧ (∀ es, es.all (fun e => (extract_string_key e.1).isSome) = false →
        pyany_to_json_value (.pyDict es) = .error (.cannotConvert (.pyDict es)))
    ∧ (∀ i, pyany_to_json_value (.pyObject i)
        = .error (.cannotConvert (.pyObject i))) := by
  refine ⟨?_, ?_, ?_, ?_, ⟨?_, ?_, ?_⟩, ?_, ?_, ?_, ?_, ?_⟩
  · simp [pyany_to_json_value, is_none]
  · intro b
    simp [pyany_to_json_value, is_none, extract_bool]
  · intro n h
    simp [pyany_to_json_value, is_none, extract_bool, extract_i64, h]
  · intro c
    simp [pyany_to_json_value, is_none, extract_bool, extract_i64, extract_f64,
      number_from_f64]
  · simp [pyany_to_json_value, is_none, extract_bool, extract_i64, extract_f64,
      number_from_f64]
  · simp [pyany_to_json_value, is_none, extract_bool, extract_i64, extract_f64,
      number_from_f64]
  · simp [pyany_to_json_value, is_none, extract_bool, extract_i64, extract_f64,
      number_from_f64]
  · intro s
    simp [pyany_to_json_value, is_none, extract_bool, extract_i64, extract_f64,
      extract_string]
  · intro xs
    have hunf : pyany_to_json_value (.pyList xs) = (convList xs).map JValue.arr := by
      simp [pyany_to_json_value, is_none, extract_bool, extract_i64, extract_f64,
        extract_string, extract_list, extract_string_map]
    exact ⟨hunf, by rw [hunf, isErr_map, convList_isErr]⟩
  · intro es h
    have hif : extract_string_map (PyVal.pyDict es) = some es := by
      simp [extract_string_map, h]
    have hunf : pyany_to_json_value (.pyDict es) = (convEntries es).map JValue.obj := by
      simp [pyany_to_json_value, is_none, extract_bool, extract_i64, extract_f64,
        extract_string, extract_list]
      split
      · rename_i es1 hm
        rw [hif] at hm
        injection hm with hh
        rw [hh]
      · rename_i hm
        rw [hif] at hm
        cases hm
    exact ⟨hunf, by rw [hunf, isErr_map, convEntries_isErr]⟩
  · intro es h
    have hif : extract_string_map (PyVal.pyDict es) = none := by
      simp [extract_string_map, h]
    simp [pyany_to_json_value, is_none, extract_bool, extract_i64, extract_f64,
      extract_string, extract_list]
    split
    · rename_i es1 hm
      rw [hif] at hm
      cases hm
    · rfl
  · intro i
    simp [pyany_to_json_value, is_none, extract_bool, extract_i64, extract_f64,
      extract_string, extract_list, extract_string_map]

/-- Witness for C1: the int conjunct at 5 and the string-keyed-dict conjunct
at a concrete one-entry dict, with their hypotheses discharged by computation. -/
theorem C1_pyany_to_json_value_witness :
    pyany_to_json_value (.pyInt 5) = .ok (.num (.int 5))
    ∧ pyany_to_json_value (.pyDict [(.pyStr "k", .pyNone)])
        = (convEntries [(.pyStr "k", .pyNone)]).map JValue.obj := by
  obtain ⟨-, -, h3, -, -, -, -, h8, -, -⟩ := C1_pyany_to_json_value_spec
  exact ⟨h3 5 (by decide), (h8 [(.pyStr "k", .pyNone)] (by decide)).1⟩

/-! ### Serialization (model of `serde_json::to_string` on a `Value`)

The dispatch bridge re-serializes the full invocation value to a compact JSON
string before passing it to the Python callback.  `serde_json::to_string` on a
`Value` is infallible (every `Value` is serializable), so the dead
`Failed to serialize args` branch of the source has no model.  Object entries
are emitted in the order of the model list. -/

def hex_digit (n : Nat) : Char :=
  if n < 10 then Char.ofNat (48 + n) else Char.ofNat (87 + n)

/-- JSON string escaping as `serde_json` performs it: quote and backslash are
escaped, control characters use the short escapes or a `\u00XX` form, every
other character is emitted verbatim. -/
def escape_char (c : Char) : String :=
  if c = Char.ofNat 34 then "\\\""
  else if c = '\\' then "\\\\"
  else if c = Char.ofNat 8 then "\\b"
  else if c = Char.ofNat 9 then "\\t"
  else if c = Char.ofNat 10 then "\\n"
  else if c = Char.ofNat 12 then "\\f"
  else if c = Char.ofNat 13 then "\\r"
  else if c.toNat < 32 then
    "\\u00" ++ String.singleton (hex_digit (c.toNat / 16))
      ++ String.singleton (hex_digit (c.toNat % 16))
  else String.singleton c

def escape_string (s : String) : String :=
  "\"" ++ String.join (s.data.map escape_char) ++ "\""

/-- Rendering of a JSON number.  An `i64` renders as its decimal form; a
finite double is abstract in this model and renders via its code. -/
def render_num : JNum → String
  | .int n => toString n
  | .float c => toString c

mutual

def serialize (v : JValue) : String :=
  match v with
  | .null => "null"
  | .bool b => if b then "true" else "false"
  | .num n => render_num n
  | .str s => escape_string s
  | .arr xs => "[" ++ serialize_items xs ++ "]"
  | .obj es => "\x7b" ++ serialize_fields es ++ "\x7d"
termination_by sizeOf v
decreasing_by
  all_goals (simp <;> omega)

def serialize_items (xs : List JValue) : String :=
  match xs with
  | [] => ""
  | [x] => serialize x
  | x :: rest => serialize x ++ "," ++ serialize_items rest
termination_by sizeOf xs
decreasing_by
  all_goals (simp <;> omega)

def serialize_fields (es : List (String × JValue)) : String :=
  match es with
  | [] => ""
  | [e] => escape_string e.1 ++ ":" ++ serialize e.2
  | e :: rest =>
    escape_string e.1 ++ ":" ++ serialize e.2 ++ "," ++ serialize_fields rest
termination_by sizeOf es
decreasing_by
  all_goals ((try cases e) <;> simp <;> omega)

end

/-! ### The command-handler registry (lib.rs, `globals`)

A Python callback handle is modelled as the function it computes on the single
string argument it is invoked with: it either returns a host value or raises a
Python error, modelled by its message text.  The global
`PYCOMMANDS_HANDLER: HashMap<String, PyObject>` is modelled extensionally as a
partial map from command names to callbacks. -/

abbrev PyCallback : Type := String → Except String PyVal

abbrev Registry : Type := String → Option PyCallback

/-- Model of `globals::add_command_handler` (a `HashMap::insert`): the new
binding for `key`, every other binding unchanged. -/
def add_command_handler (reg : Registry) (key : String) (value : PyCallback) :
    Registry :=
  fun k => if k = key then some value else reg k

/-- Model of `globals::get_command_handler` (a `HashMap::get`). -/
def get_command_handler (reg : Registry) (key : String) : Option PyCallback :=
  reg key

/-- Model of `TauriApp::register_commands`: each handler in the list is
registered under its `__name__` (the first pair component), in order. -/
def register_commands (reg : Registry)
    (handlers : List (String × PyCallback)) : Registry :=
  handlers.foldl (fun r h => add_command_handler r h.1 h.2) reg

/-- The most recent handler registered under `m` in a registration list. -/
def last_registration (handlers : List (String × PyCallback)) (m : String) :
    Option PyCallback :=
  handlers.foldl (fun acc e => if e.1 = m then some e.2 else acc) none

/-! ### Command dispatch (lib.rs, `handle_py_command`)

The first component of the result is exactly the return value of the Rust
function (`Result<Option<Value>, String>`); the second component is the
observation trace of Python-callback invocations, each recorded as the pair
(command name, string argument passed to the callback), so that claims about
what the dispatcher did or did not invoke are statable. -/

/-- Model of `args.get("command")` on a `serde_json::Value`. -/
def jGet (v : JValue) (key : String) : Option JValue :=
  match v with
  | .obj entries => (entries.find? (fun e => decide (e.1 = key))).map Prod.snd
  | _ => none

/-- Model of `Value::as_str`. -/
def value_as_str : JValue → Option String
  | .str s => some s
  | _ => none

/-- Rendering of the conversion error as it is embedded in the dispatch error
string; the debug repr of the offending value appended by the source is
abstracted away. -/
def render_conv_error : ConvErr → String
  | .cannotConvert _ => "TypeError: Cannot convert Python object to JSON"

def handle_py_command (reg : Registry) (args : JValue) :
    Except String (Option JValue) × List (String × String) :=
  match (jGet args "command").bind value_as_str with
  | none => (.error "Missing command name in args", [])
  | some command_name =>
    let args_str := serialize args
    match get_command_handler reg command_name with
    | none =>
      (.error ("Command \x27" ++ command_name ++ "\x27 not registered"), [])
    | some handler =>
      match handler args_str with
      | .error e =>
        (.error ("Python callback error: " ++ e), [(command_name, args_str)])
      | .ok result =>
        match pyany_to_json_value result with
        | .ok v => (.ok (some v), [(command_name, args_str)])
        | .error err =>
          (.error ("Failed to convert Python result: " ++ render_conv_error err),
           [(command_name, args_str)])

/-- A callback that returns Python None regardless of its argument. -/
def demo_callback : PyCallback := fun _ => .ok .pyNone

/-- A registry with the single command "f" bound to `demo_callback`. -/
def demo_registry : Registry :=
  fun s => if s = "f" then some demo_callback else none

/-- The empty registry. -/
def empty_registry : Registry := fun _ => none

/-- A well-formed invocation of the command "f". -/
def demo_args : JValue := .obj [("command", .str "f")]

/-- C2: when the invocation carries a registered command name, dispatch
invokes the registered callback exactly once, with the single argument
`serialize args` — the serialization of the complete invocation value,
including the command field; on callback success the return value is coerced
by `pyany_to_json_value`, and on callback failure dispatch returns an error
string embedding the host error text. -/
theorem C2_handle_py_command_dispatch (reg : Registry) (args : JValue)
    (name : String) (handler : PyCallback)
    (hname : (jGet args "command").bind value_as_str = some name)
    (hreg : get_command_handler reg name = some handler) :
    handle_py_command reg args =
      ((match handler (serialize args) with
        | .error e => .error ("Python callback error: " ++ e)
        | .ok result =>
          match pyany_to_json_value result with
          | .ok v => .ok (some v)
          | .error err =>
            .error ("Failed to convert Python result: " ++ render_conv_error err)),
       [(name, serialize args)]) := by
  rw [handle_py_command, hname]
  simp only [hreg]
  split
  · rfl
  · split
    · rfl
    · rfl

/-- Witness for C2 at a concrete registry, callback and invocation. -/
theorem C2_handle_py_command_dispatch_witness :
    handle_py_command demo_registry demo_args =
      (.ok (some .null), [("f", serialize demo_args)]) := by
  have h := C2_handle_py_command_dispatch demo_registry demo_args "f"
    demo_callback rfl rfl
  rw [h]
  simp [demo_callback, pyany_to_json_value, is_none]

/-- C4: an invocation whose command field is absent or not a string is
rejected with exactly the error string "Missing command name in args", and no
registered handler is invoked (the invocation trace is empty). -/
theorem C4_missing_command_name (reg : Registry) (args : JValue)
    (h : (jGet args "command").bind value_as_str = none) :
    handle_py_command reg args = (.error "Missing command name in args", []) := by
  rw [handle_py_command, h]

/-- Witness for C4: a null invocation value has no command field. -/
theorem C4_missing_command_name_witness :
    handle_py_command demo_registry .null
      = (.error "Missing command name in args", []) :=
  C4_missing_command_name demo_registry .null rfl

/-- C5: an invocation naming a command with no registered handler fails with
the error string "Command (name) not registered" (the name in single quotes),
and no callback is invoked (the invocation trace is empty). -/
theorem C5_unregistered_command (reg : Registry) (args : JValue) (name : String)
    (hname : (jGet args "command").bind value_as_str = some name)
    (hreg : get_command_handler reg name = none) :
    handle_py_command reg args =
      (.error ("Command \x27" ++ name ++ "\x27 not registered"), []) := by
  rw [handle_py_command, hname]
  simp only [hreg]

/-- Witness for C5: dispatching "f" against the empty registry. -/
theorem C5_unregistered_command_witness :
    handle_py_command empty_registry demo_args
      = (.error ("Command \x27" ++ "f" ++ "\x27 not registered"), []) :=
  C5_unregistered_command empty_registry demo_args "f" rfl rfl

/-- C9: successful dispatch always returns `Some`: whenever
`handle_py_command` returns an `ok` value that value is `some`, and a callback
returning Python None yields `ok (some Null)`, never `ok none`. -/
theorem C9_dispatch_never_ok_none :
    (∀ (reg : Registry) (args : JValue) (v : Option JValue)
       (tr : List (String × String)),
       handle_py_command reg args = (.ok v, tr) → v.isSome = true)
    ∧ (∀ (reg : Registry) (args : JValue) (name : String) (handler : PyCallback),
       (jGet args "command").bind value_as_str = some name →
       get_command_handler reg name = some handler →
       handler (serialize args) = .ok .pyNone →
       (handle_py_command reg args).1 = .ok (some .null)) := by
  constructor
  · intro reg args v tr h
    rw [handle_py_command] at h
    dsimp only at h
    split at h
    · cases h
    · rename_i name hname
      split at h
      · cases h
      · rename_i handler hreg
        split at h
        · cases h
        · rename_i result hres
          split at h
          · rename_i jv hconv
            cases h
            rfl
          · cases h
  · intro reg args name handler hname hreg hres
    rw [C2_handle_py_command_dispatch reg args name handler hname hreg]
    rw [hres]
    simp [pyany_to_json_value, is_none]

theorem registry_foldl_acc (m : String) (hs : List (String × PyCallback)) :
    ∀ acc : Option PyCallback,
      hs.foldl (fun a e => if e.1 = m then some e.2 else a) acc
        = (last_registration hs m).elim acc some := by
  induction hs with
  | nil =>
    intro acc
    simp [last_registration]
  | cons x xs ih =>
    intro acc
    rw [List.foldl_cons, ih]
    have hrhs : last_registration (x :: xs) m
        = (last_registration xs m).elim (if x.1 = m then (some x.2 : Option PyCallback) else none) some := by
      rw [last_registration, List.foldl_cons]
      exact ih _
    rw [hrhs]
    cases last_registration xs m with
    | some h => simp
    | none =>
      by_cases hx : x.1 = m <;> simp [hx]

theorem register_commands_apply (m : String) (hs : List (String × PyCallback)) :
    ∀ reg : Registry,
      register_commands reg hs m
        = hs.foldl (fun a e => if e.1 = m then some e.2 else a) (reg m) := by
  induction hs with
  | nil =>
    intro reg
    rfl
  | cons x xs ih =>
    intro reg
    rw [register_commands, List.foldl_cons, List.foldl_cons]
    rw [show (List.foldl (fun r h => add_command_handler r h.1 h.2)
      (add_command_handler reg x.1 x.2) xs : Registry)
      = register_commands (add_command_handler reg x.1 x.2) xs from rfl]
    rw [ih]
    have : add_command_handler reg x.1 x.2 m = if x.1 = m then some x.2 else reg m := by
      by_cases hx : m = x.1
      · simp [add_command_handler, hx]
      · have hx2 : ¬ x.1 = m := fun hc => hx hc.symm
        simp [add_command_handler, hx, hx2]
    rw [this]

/-- C6: registration is additive with overwrite semantics: inserting under a
name binds that name to the new handler, leaves every other name unchanged,
`register_commands` leaves a name bound to the most recently registered
handler for it (or the prior binding when the call does not touch it), and
re-registering a name makes dispatch behave exactly as if only the latest
handler had been registered. -/
theorem C6_registry_overwrite :
    (∀ (reg : Registry) (n : String) (h : PyCallback),
      get_command_handler (add_command_handler reg n h) n = some h)
    ∧ (∀ (reg : Registry) (n : String) (h : PyCallback) (m : String), m ≠ n →
      get_command_handler (add_command_handler reg n h) m = get_command_handler reg m)
    ∧ (∀ (reg : Registry) (hs : List (String × PyCallback)) (m : String),
      get_command_handler (register_commands reg hs) m
        = (last_registration hs m).elim (get_command_handler reg m) some)
    ∧ (∀ (reg : Registry) (n : String) (h1 h2 : PyCallback) (args : JValue),
      handle_py_command (add_command_handler (add_command_handler reg n h1) n h2) args
        = handle_py_command (add_command_handler reg n h2) args) := by
  refine ⟨?_, ?_, ?_, ?_⟩
  · intro reg n h
    simp [get_command_handler, add_command_handler]
  · intro reg n h m hm
    simp [get_command_handler, add_command_handler, hm]
  · intro reg hs m
    rw [get_command_handler, get_command_handler, register_commands_apply,
      registry_foldl_acc]
  · intro reg n h1 h2 args
    have hpt : add_command_handler (add_command_handler reg n h1) n h2
        = add_command_handler reg n h2 := by
      funext k
      by_cases hk : k = n <;> simp [add_command_handler, hk]
    rw [hpt]

/-- Witness for C6: a fresh binding is visible under its own name and leaves a
different name untouched. -/
theorem C6_registry_overwrite_witness :
    get_command_handler (add_command_handler empty_registry "b" demo_callback) "b"
        = some demo_callback
    ∧ get_command_handler (add_command_handler empty_registry "b" demo_callback) "a"
        = get_command_handler empty_registry "a" := by
  obtain ⟨h1, h2, -, -⟩ := C6_registry_overwrite
  exact ⟨h1 empty_registry "b" demo_callback,
    h2 empty_registry "b" demo_callback "a" (by decide)⟩

/-- Witness for C9: dispatching "f" against `demo_registry`, whose callback
returns Python None, yields `ok (some Null)`; the evaluated dispatch result
feeds the first conjunct. -/
theorem C9_dispatch_never_ok_none_witness :
    (some JValue.null).isSome = true
    ∧ (handle_py_command demo_registry demo_args).1 = .ok (some .null) := by
  obtain ⟨h1, h2⟩ := C9_dispatch_never_ok_none
  refine ⟨?_, h2 demo_registry demo_args "f" demo_callback rfl rfl rfl⟩
  refine h1 demo_registry demo_args (some .null) [("f", serialize demo_args)] ?_
  rw [handle_py_command]
  simp [jGet, value_as_str, demo_args, demo_registry, demo_callback,
    get_command_handler, pyany_to_json_value, is_none]

/-! ### Outbound native-shell operations (lib.rs, `TauriApp` methods)

The native `AppHandle` is abstract.  The external pieces the methods delegate
to — the URL parser, the window builder, the event bus — are passed as
explicit function parameters.  `close` and `emit` additionally return a trace
of the outward effects they performed (exit codes requested, events put on the
bus), so that silently doing nothing is distinguishable from acting. -/

abbrev AppHandle : Type := Nat

/-- The Python exception kinds raised by the `TauriApp` methods. -/
inductive PyErr : Type where
  | runtimeError (msg : String) : PyErr
  | valueError (msg : String) : PyErr

/-- The configuration accumulated by the `WebviewWindowBuilder` chain in
`create_window`: label, title, parsed url, initialization script, visibility,
size, maximized flag, optional user agent, and whether centering was
requested. -/
structure WindowConfig : Type where
  label : String
  title : String
  url : String
  init_script : String
  visible : Bool
  width : Int
  height : Int
  maximized : Bool
  user_agent : Option String
  centered : Bool

namespace TauriApp

/-- Model of `TauriApp::create_window`.  `parse_url` is `Url::from_str`,
`init_script_src` the bundled initialization script text, and `build` the
native window builder; the app-handle guard comes first, exactly as in the
source. -/
def create_window (parse_url : String → Except String String)
    (init_script_src : String)
    (build : WindowConfig → Except String Unit)
    (app_handle : Option AppHandle)
    (label title url : String) (user_agent : Option String)
    (width height : Option Int) (maximized center : Bool) :
    Except PyErr Unit :=
  match app_handle with
  | none => .error (.runtimeError "App handle not initialized")
  | some _ =>
    match parse_url url with
    | .error e => .error (.valueError ("Invalid URL: " ++ e))
    | .ok parsed =>
      let init_script := init_script_src.replace "apptitle" title
      let cfg : WindowConfig :=
        ⟨label, title, parsed, init_script, true, width.getD 800,
         height.getD 600, maximized, user_agent, center⟩
      match build cfg with
      | .ok _ => .ok ()
      | .error e => .error (.runtimeError ("Failed to build window: " ++ e))

/-- Model of `TauriApp::close`: requests exit code 0 when the app handle is
set, silently does nothing otherwise; in both cases it returns success.  The
second component lists the exit codes requested. -/
def close (app_handle : Option AppHandle) : Except PyErr Unit × List Int :=
  match app_handle with
  | some _ => (.ok (), [0])
  | none => (.ok (), [])

/-- Model of `TauriApp::emit`: puts the event on the bus when the app handle
is set, mapping a bus failure to a runtime error; silently does nothing and
returns success when the handle is unset.  The second component lists the
events handed to the bus. -/
def emit (bus : AppHandle → String → String → Except String Unit)
    (app_handle : Option AppHandle) (event_type event_data : String) :
    Except PyErr Unit × List (String × String) :=
  match app_handle with
  | some h =>
    (match bus h event_type event_data with
     | .ok _ => .ok ()
     | .error e => .error (.runtimeError ("Failed to emit event: " ++ e)),
     [(event_type, event_data)])
  | none => (.ok (), [])

end TauriApp

/-- An event bus that accepts every event. -/
def demo_bus : AppHandle → String → String → Except String Unit :=
  fun _ _ _ => .ok ()

/-- Counterexample to C3 as stated: with the app handle unset, `emit` and
`close` do not fail with a not-initialized error — they return success and
perform no outward effect. -/
theorem C3_counterexample :
    TauriApp.emit demo_bus none "evt" "data" = (.ok (), [])
    ∧ TauriApp.close none = (.ok (), [])
    ∧ isErr (TauriApp.emit demo_bus none "evt" "data").1 = false
    ∧ isErr (TauriApp.close none).1 = false :=
  ⟨rfl, rfl, rfl, rfl⟩

/-- C3 amended: before the app handle is set, `create_window` fails with the
not-initialized runtime error, while `emit` and `close` silently succeed,
performing no outward effect. -/
theorem C3_amended_app_handle_guard :
    (∀ (parse_url : String → Except String String) (init_script_src : String)
       (build : WindowConfig → Except String Unit) (label title url : String)
       (user_agent : Option String) (width height : Option Int)
       (maximized center : Bool),
       TauriApp.create_window parse_url init_script_src build none label title
         url user_agent width height maximized center
         = .error (.runtimeError "App handle not initialized"))
    ∧ (∀ (bus : AppHandle → String → String → Except String Unit)
         (event_type event_data : String),
         TauriApp.emit bus none event_type event_data = (.ok (), []))
    ∧ TauriApp.close none = (.ok (), []) :=
  ⟨fun _ _ _ _ _ _ _ _ _ _ _ => rfl, fun _ _ _ => rfl, rfl⟩

/-! ### The event relay (lib.rs, `setup_app`)

The relay is registered on the single channel "webview_emit".  Its handler
reads the registered listener callback, invokes it on the event payload, and
logs-and-swallows any failure: it is total, so a failure never propagates to
the native event loop.  `relay_handle` returns the log entries produced by one
delivery; `relay_deliver` runs the bus over a list of (channel, payload)
events, delivering each event on the relay channel in order. -/

abbrev EventCallback : Type := String → Except String PyVal

def WEBVIEW_EMIT : String := "webview_emit"

def relay_handle (listener : Option EventCallback) (payload : String) :
    List String :=
  match listener with
  | none => []
  | some cb =>
    match cb payload with
    | .ok _ => []
    | .error e => ["Error in Python callback: " ++ e]

def relay_deliver (listener : Option EventCallback)
    (events : List (String × String)) : List (String × List String) :=
  (events.filter (fun e => decide (e.1 = WEBVIEW_EMIT))).map
    (fun e => (e.2, relay_handle listener e.2))

/-- C7: every event received on the relay channel invokes the registered
callback with the payload string, a callback failure is logged and swallowed,
and the relay stays live: every event on the channel is delivered regardless
of earlier callback failures — in particular the event after a failing one. -/
theorem C7_event_relay :
    (∀ (cb : EventCallback) (payload : String),
       relay_handle (some cb) payload
         = match cb payload with
           | .ok _ => []
           | .error e => ["Error in Python callback: " ++ e])
    ∧ (∀ (listener : Option EventCallback) (events : List (String × String)),
       (relay_deliver listener events).map Prod.fst
         = (events.filter (fun e => decide (e.1 = WEBVIEW_EMIT))).map Prod.snd)
    ∧ (∀ (cb : EventCallback) (e p1 p2 : String), cb p1 = .error e →
       relay_deliver (some cb) [(WEBVIEW_EMIT, p1), (WEBVIEW_EMIT, p2)]
         = [(p1, ["Error in Python callback: " ++ e]),
            (p2, relay_handle (some cb) p2)]) := by
  refine ⟨?_, ?_, ?_⟩
  · intro cb payload
    rfl
  · intro listener events
    simp [relay_deliver, List.map_map, Function.comp]
  · intro cb e p1 p2 hfail
    simp [relay_deliver, List.filter]
    rw [relay_handle, hfail]

/-- A listener callback that fails on every payload. -/
def fail_callback : EventCallback := fun _ => .error "boom"

/-- Witness for C7: after the failing first delivery, the second event is
still delivered. -/
theorem C7_event_relay_witness :
    relay_deliver (some fail_callback) [(WEBVIEW_EMIT, "a"), (WEBVIEW_EMIT, "b")]
      = [("a", ["Error in Python callback: " ++ "boom"]),
         ("b", relay_handle (some fail_callback) "b")] := by
  obtain ⟨-, -, h3⟩ := C7_event_relay
  exact h3 fail_callback "boom" "a" "b" rfl

/-! ### The static file protocol (lib.rs, `handle_fs_protocol`)

The request path is joined to the configured frontend directory verbatim: the
only transformation the source applies is `trim_start_matches` on the leading
slash characters (`/` itself resolves to `index.html`); there is no path
normalization and no containment check.  The filesystem is modelled as a list
of (normalized absolute-free path, contents) pairs; `fs_lookup` models the
operating system resolving `.` and `..` components of the looked-up path
before consulting it, which is exactly what `Path::exists` and `fs::read`
observe. -/

/-- Model of `trim_start_matches` on the slash character: drops every leading
slash. -/
def trim_leading_slashes (s : String) : String :=
  String.mk (s.data.dropWhile (fun c => c == '/'))

/-- Model of `PathBuf::join` for the non-absolute right operand produced by
`trim_leading_slashes`: concatenation with a separator unless one is already
present. -/
def joinPath (dir p : String) : String :=
  if dir.data.getLast? = some '/' then dir ++ p else dir ++ "/" ++ p

/-- Splits a path into its slash-separated components. -/
def split_chars : List Char → List Char → List String
  | [], cur => [String.mk cur.reverse]
  | c :: rest, cur =>
    if c == '/' then String.mk cur.reverse :: split_chars rest []
    else split_chars rest (c :: cur)

/-- Operating-system resolution of `.` and `..` components: empty and `.`
components are dropped, `..` pops the previous component. -/
def resolve_stack : List String → List String → List String
  | stack, [] => stack.reverse
  | stack, comp :: rest =>
    if comp = "" ∨ comp = "." then resolve_stack stack rest
    else if comp = ".." then resolve_stack (stack.drop 1) rest
    else resolve_stack (comp :: stack) rest

def normalize_os_path (p : String) : String :=
  String.intercalate "/" (resolve_stack [] (split_chars p.data []))

/-- Model of the filesystem read performed through `Path::exists` and
`fs::read`: the path is resolved by the operating system and looked up. -/
def fs_lookup (fs : List (String × String)) (p : String) : Option String :=
  (fs.find? (fun e => decide (e.1 = normalize_os_path p))).map Prod.snd

structure HttpResponse : Type where
  status : Nat
  body : String

/-- Model of `not_found_response`: HTTP 404 with an empty body. -/
def not_found_response : HttpResponse := ⟨404, ""⟩

/-- Model of `handle_fs_protocol`. -/
def handle_fs_protocol (fs : List (String × String))
    (frontend_dir : Option String) (request_path : String) : HttpResponse :=
  match frontend_dir with
  | none => not_found_response
  | some front_dir =>
    let normalized_path :=
      if request_path = "/" then "index.html"
      else trim_leading_slashes request_path
    let path := joinPath front_dir normalized_path
    match fs_lookup fs path with
    | some content => ⟨200, content⟩
    | none => not_found_response

/-- Tests whether `p` lies strictly under the directory `dir`. -/
def path_is_under (dir p : String) : Bool :=
  decide (p.data.take (dir.data.length + 1) = dir.data ++ [Char.ofNat 47])

/-- C8: with no frontend directory configured every request yields 404 with an
empty body; with a directory configured, "/" resolves to index.html under it
and any other path is looked up relative to it after stripping leading
slashes; a missing file yields 404 with an empty body and an existing file is
served with status 200 and its contents as the body. -/
theorem C8_fs_protocol_spec :
    (∀ fs p, handle_fs_protocol fs none p = not_found_response)
    ∧ not_found_response.status = 404
    ∧ not_found_response.body = ""
    ∧ (∀ fs d, handle_fs_protocol fs (some d) "/"
        = match fs_lookup fs (joinPath d "index.html") with
          | some content => ⟨200, content⟩
          | none => not_found_response)
    ∧ (∀ fs d p, p ≠ "/" →
        handle_fs_protocol fs (some d) p
          = match fs_lookup fs (joinPath d (trim_leading_slashes p)) with
            | some content => ⟨200, content⟩
            | none => not_found_response) := by
  refine ⟨?_, rfl, rfl, ?_, ?_⟩
  · intro fs p
    rfl
  · intro fs d
    rw [handle_fs_protocol]
    simp
  · intro fs d p hp
    rw [handle_fs_protocol]
    simp [hp]

/-- A concrete filesystem with a frontend directory "front" and a file
outside it. -/
def demo_fs : List (String × String) :=
  [("front/index.html", "home"), ("front/app.js", "js"),
   ("etc/passwd", "root:x:0:0")]

/-- Witness for C8: a non-root request path is served relative to the
configured directory. -/
theorem C8_fs_protocol_spec_witness :
    handle_fs_protocol demo_fs (some "front") "/app.js" = ⟨200, "js"⟩ := by
  obtain ⟨-, -, -, -, h5⟩ := C8_fs_protocol_spec
  rw [h5 demo_fs "front" "/app.js" (by decide)]
  rfl

/-- C10: the request path is joined to the frontend directory verbatim (only
leading slashes stripped) with no normalization or containment check, so a
request containing a ".." component reads and serves, with status 200, an
existing file that lies outside the configured frontend directory. -/
theorem C10_path_traversal :
    handle_fs_protocol demo_fs (some "front") "/../etc/passwd"
        = ⟨200, "root:x:0:0"⟩
    ∧ joinPath "front" (trim_leading_slashes "/../etc/passwd")
        = "front/../etc/passwd"
    ∧ normalize_os_path "front/../etc/passwd" = "etc/passwd"
    ∧ path_is_under "front" "etc/passwd" = false := by
  refine ⟨rfl, ?_, ?_, by decide⟩
  · rfl
  · rfl
